import Mathlib

/-!
Shallow embedding of the AI_HustleHub repository (src/AI_HustleHub.py and
src/lead_processor_module.py) and proofs about its core functions.

Modelling conventions:
- Python strings are Lean `String`s; `s[:n]`, `s.strip()`, `s.upper()` are
  embedded as list-based operations on `String.data` (`pySlice`, `pyStrip`,
  `pyUpper`) so that concrete instances evaluate inside the kernel.
- Python truthiness of an optional string (`if x:`) is `truthy`.
- The Gemini network call is modelled by an oracle `GemEnv.outcome` giving the
  behaviour of the i-th `generate_content` invocation of the session; the
  Streamlit session counter `st.session_state.api_calls` and the number of
  invocations made so far form the explicit state `GemState`.
- pandas DataFrames are `DF` (ordered column names plus rows as ordered
  association lists); CSV files on disk are `CsvFile` (absent, unreadable, or
  readable with a given frame).  Best-effort `to_csv` writes are swallowed by
  the source (bare `except: pass`) and have no observable effect, so they are
  not modelled.
- The HTTP GET of the scraper is an oracle value `HttpResult`: either the
  request raised, or it returned a response with a status code, reason
  phrase, parsed page and final URL.  `requests.Response.raise_for_status`
  raises exactly for status codes 400-599, with the message formats of the
  requests library.
- The tkinter module's mutable globals (`LEAD_DATA`, the output text box and
  the status label) form the explicit state `TkState`; reading `leads.csv`
  with `csv.DictReader` is an oracle `CsvReadResult` which can yield all rows,
  raise `FileNotFoundError` at `open`, or raise after yielding a prefix of the
  rows (e.g. a decoding error in the middle of the file).
-/

/-- Embeds Python `s[:n]` on strings (first `n` code points). -/
def pySlice (n : Nat) (s : String) : String :=
  String.mk (s.data.take n)

/-- Embeds Python `s.strip()` (drop leading and trailing whitespace). -/
def pyStrip (s : String) : String :=
  String.mk (((s.data.dropWhile Char.isWhitespace).reverse.dropWhile Char.isWhitespace).reverse)

/-- Embeds Python `s.upper()`. -/
def pyUpper (s : String) : String :=
  String.mk (s.data.map Char.toUpper)

/-- Embeds Python truthiness of an optional string: `None` and `""` are falsy. -/
def truthy : Option String → Bool
  | none => false
  | some s => !s.isEmpty

/-- Row of a table: an ordered association list of column name to cell value,
as produced by `csv.DictReader` or by viewing one pandas row. -/
abbrev Row := List (String × String)

/-- Embeds `row[k]` as an optional lookup of the first binding (`none` when
the key is absent, where Python would raise `KeyError`). -/
def Row.getVal (r : Row) (k : String) : Option String :=
  match r with
  | [] => none
  | p :: t => if p.1 == k then some p.2 else Row.getVal t k

/-- Embeds `str(row[k])` for a rectangular pandas frame, in which every row
carries every column; the default is never reached under the column checks
performed by the source before any row access. -/
def Row.getStr (r : Row) (k : String) : String :=
  (Row.getVal r k).getD ""

/-- Sets (or appends) one cell of a row, keeping column order. -/
def Row.set (r : Row) (k : String) (v : String) : Row :=
  if r.any (fun p => p.1 == k) then
    r.map (fun p => if p.1 == k then (p.1, v) else p)
  else r ++ [(k, v)]

/-- Embeds a pandas DataFrame: ordered column names and ordered rows. -/
structure DF where
  cols : List String
  rows : List Row
deriving DecidableEq, Repr

/-- Embeds `df[k] = vs` for a list `vs` with one value per row: a new column
is appended (or an existing one overwritten in place). -/
def DF.setCol (df : DF) (k : String) (vs : List String) : DF :=
  { cols := if df.cols.contains k then df.cols else df.cols ++ [k]
    rows := (df.rows.zip vs).map (fun rv => Row.set rv.1 k rv.2) }

/-- Embeds `df_has_columns` (AI_HustleHub.py line 95). -/
def df_has_columns (df : DF) (cols : List String) : Bool :=
  cols.all (fun c => df.cols.contains c)

/-- Behaviour of one `generate_content` invocation: it either returns (with
`text` standing for `resp.text or ""`) or raises. -/
inductive ApiOutcome
  | ok (text : String)
  | exn (msg : String)
deriving DecidableEq, Repr

/-- Session environment for the Gemini wrapper: whether the client was
initialized (`gemini_available`), and the behaviour of each successive
`generate_content` invocation. -/
structure GemEnv where
  available : Bool
  outcome : Nat → ApiOutcome

/-- Mutable session state touched by `call_gemini`: how many
`generate_content` invocations happened so far (indexing the oracle) and the
`st.session_state.api_calls` counter. -/
structure GemState where
  calls_made : Nat
  api_calls : Nat
deriving DecidableEq, Repr

/-- Embeds `_count_api_call` (AI_HustleHub.py line 57). -/
def _count_api_call (ok : Bool) (api_calls : Nat) : Nat :=
  if ok then api_calls + 1 else api_calls

/-- Test on an outcome: did the API invocation itself return (even with empty
text)? -/
def isOkOutcome : ApiOutcome → Bool
  | .ok _ => true
  | .exn _ => false

/-- String returned by `call_gemini` once `generate_content` was invoked with
the given behaviour: the stripped text if non-empty, the fixed empty-response
error if it stripped to empty, the wrapped exception otherwise. -/
def outcomeText : ApiOutcome → String
  | .ok t => if (pyStrip t).isEmpty then "ERROR: Empty response from model." else pyStrip t
  | .exn m => "ERROR: " ++ m

/-- Embeds `call_gemini` (AI_HustleHub.py lines 61-71).  Note the source runs
`_count_api_call(True)` before testing the stripped text for emptiness, so
the counter moves on every invocation that returns, empty or not. -/
def call_gemini (env : GemEnv) (prompt : String) (st : GemState) : String × GemState :=
  if env.available then
    match env.outcome st.calls_made with
    | .ok t =>
        (outcomeText (.ok t),
         { calls_made := st.calls_made + 1, api_calls := _count_api_call true st.api_calls })
    | .exn m =>
        (outcomeText (.exn m),
         { calls_made := st.calls_made + 1, api_calls := st.api_calls })
  else
    ("ERROR: Gemini client not initialized. Set GEMINI_API_KEY.", st)

/-- Runs `call_gemini` on each prompt of a list in order, threading the
session state, as the per-row loops of the table tools do. -/
def call_gemini_seq (env : GemEnv) : List String → GemState → List String × GemState
  | [], st => ([], st)
  | p :: ps, st =>
      let r := call_gemini env p st
      let rs := call_gemini_seq env ps r.2
      (r.1 :: rs.1, rs.2)

/-- Number of indices in `[start, start + n)` at which the oracle lets the
API invocation return (rather than raise). -/
def countOk (env : GemEnv) (start : Nat) : Nat → Nat
  | 0 => 0
  | n + 1 => (if isOkOutcome (env.outcome start) then 1 else 0) + countOk env (start + 1) n

/-- Embeds `load_topic_from_file` (AI_HustleHub.py line 79): `topicFile` is
`some raw` when `hustle_topic.txt` exists and reads with content `raw`, and
`none` when it is absent or unreadable. -/
def load_topic_from_file (topicFile : Option String) : Option String :=
  topicFile.map pyStrip

/-- Embeds the topic-resolution step shared by the ghostwriter tools
(AI_HustleHub.py lines 140-141 and analogues): the explicit topic wins when
truthy, otherwise the fallback file is read. -/
def resolve_topic (topic : Option String) (topicFile : Option String) : Option String :=
  if truthy topic then topic else load_topic_from_file topicFile

/-- Prompt of `fn_topic_generator` (AI_HustleHub.py lines 131-135). -/
def topic_generator_prompt : String :=
  "You are an expert market analyst. Identify a single, highly specific, low-competition niche for a digital product or content side hustle. Output ONLY the niche idea itself."

/-- Embeds `fn_topic_generator` (AI_HustleHub.py lines 127-136). -/
def fn_topic_generator (env : GemEnv) (topic_override : Option String) (st : GemState) :
    String × GemState :=
  if truthy topic_override then
    ("(Using provided topic)\n" ++ topic_override.getD "", st)
  else
    call_gemini env topic_generator_prompt st

/-- Fixed error of the topic-dependent tools when no topic can be resolved. -/
def no_topic_error : String :=
  "ERROR: No topic provided and 'hustle_topic.txt' not found."

/-- Prompt of `fn_long_form` (AI_HustleHub.py lines 144-147). -/
def long_form_prompt (topic : String) : String :=
  "As a professional Ghostwriter, create a detailed, 5-section long-form article outline for the niche: "
    ++ topic ++ ". The outline should be SEO-friendly and ready for script creation."

/-- Embeds `fn_long_form` (AI_HustleHub.py lines 139-148). -/
def fn_long_form (env : GemEnv) (topic : Option String) (topicFile : Option String)
    (st : GemState) : String × GemState :=
  let t := resolve_topic topic topicFile
  if truthy t then call_gemini env (long_form_prompt (t.getD "")) st
  else (no_topic_error, st)

/-- Prompt of `fn_short_form` (AI_HustleHub.py lines 156-159). -/
def short_form_prompt (topic : String) : String :=
  "Based on the niche: " ++ topic
    ++ ", generate a 5-point FAQ list and a 3-sentence summary for a short-form video (like a TikTok/Reel)."

/-- Embeds `fn_short_form` (AI_HustleHub.py lines 151-160). -/
def fn_short_form (env : GemEnv) (topic : Option String) (topicFile : Option String)
    (st : GemState) : String × GemState :=
  let t := resolve_topic topic topicFile
  if truthy t then call_gemini env (short_form_prompt (t.getD "")) st
  else (no_topic_error, st)

/-- Prompt of `fn_captions` (AI_HustleHub.py lines 168-171). -/
def captions_prompt (topic : String) : String :=
  "Generate three high-impact captions for the niche: " ++ topic
    ++ ". One for Instagram, one for X/Twitter, and one for LinkedIn. Format clearly with platform headers."

/-- Embeds `fn_captions` (AI_HustleHub.py lines 163-172). -/
def fn_captions (env : GemEnv) (topic : Option String) (topicFile : Option String)
    (st : GemState) : String × GemState :=
  let t := resolve_topic topic topicFile
  if truthy t then call_gemini env (captions_prompt (t.getD "")) st
  else (no_topic_error, st)

/-- State of a CSV input file (`input.csv` / `leads.csv`) in the working
directory: absent, present but failing to parse with a message, or parsing
to a frame. -/
inductive CsvFile
  | absent
  | readError (msg : String)
  | content (df : DF)

/-- Per-row prompt of `fn_product_automator` (AI_HustleHub.py lines 202-210),
including the optional current-product-description context. -/
def product_prompt (cpd : Option String) (r : Row) : String :=
  "You are an expert e-commerce copywriter. Write a compelling, SEO-optimized product description.\n"
    ++ "Product: " ++ Row.getStr r "Title" ++ "\n"
    ++ "Features: " ++ Row.getStr r "Features" ++ "\n"
    ++ "Keywords: " ++ Row.getStr r "Keywords" ++ "\n"
    ++ (if truthy cpd then
          "Consider this current/previous description for improvement ideas: " ++ cpd.getD "" ++ "\n"
        else "")
    ++ "Output ONLY the new description."

/-- Embeds `fn_product_automator` (AI_HustleHub.py lines 175-220).  The
best-effort `to_csv("output.csv")` is swallowed by the source and not
modelled. -/
def fn_product_automator (env : GemEnv) (cpd : Option String) (uploaded_csv : Option DF)
    (inputCsv : CsvFile) (st : GemState) : (DF ⊕ String) × GemState :=
  let src : DF ⊕ String :=
    match uploaded_csv with
    | some d => Sum.inl d
    | none =>
        match inputCsv with
        | .content d => Sum.inl d
        | .readError m => Sum.inr ("ERROR: Failed to read input.csv: " ++ m)
        | .absent => Sum.inr "ERROR: No data provided. Upload a CSV or place 'input.csv' in working directory."
  match src with
  | Sum.inr e => (Sum.inr e, st)
  | Sum.inl df =>
      if df_has_columns df ["Title", "Features", "Keywords"] then
        let r := call_gemini_seq env (df.rows.map (product_prompt cpd)) st
        (Sum.inl (df.setCol "Generated_Description" r.1), r.2)
      else
        (Sum.inr "ERROR: Missing required columns. Need ['Title', 'Features', 'Keywords']", st)

/-- Per-row prompt of `fn_leads_processor` (AI_HustleHub.py lines 255-262). -/
def leads_prompt (r : Row) : String :=
  "You are a professional outreach specialist. Draft a personalized, high-conversion cold email pitch.\n"
    ++ "Target Business: " ++ Row.getStr r "Business_Name" ++ "\n"
    ++ "Their Focus: " ++ Row.getStr r "Product_Focus" ++ "\n"
    ++ "Your Offer (based on their focus): " ++ Row.getStr r "AI_Pitch_Sample" ++ "\n"
    ++ "Start professionally. Mention their focus area, then integrate your offer naturally.\n"
    ++ "End with a clear, low-friction CTA. Sign off as RuralJoe. Output ONLY the email body."

/-- Single-row fallback frame built by `fn_leads_processor` when only a
business name is supplied (AI_HustleHub.py lines 238-242). -/
def single_lead_df (business_name : String) : DF :=
  { cols := ["Business_Name", "Product_Focus", "AI_Pitch_Sample"]
    rows := [[("Business_Name", business_name), ("Product_Focus", "N/A"),
              ("AI_Pitch_Sample", "Custom AI services.")]] }

/-- Embeds `fn_leads_processor` (AI_HustleHub.py lines 223-273).  The
best-effort `to_csv("processed_leads.csv")` is swallowed by the source and
not modelled. -/
def fn_leads_processor (env : GemEnv) (business_name : Option String) (uploaded_csv : Option DF)
    (leadsCsv : CsvFile) (st : GemState) : (DF ⊕ String) × GemState :=
  let src : DF ⊕ String :=
    match uploaded_csv with
    | some d => Sum.inl d
    | none =>
        match leadsCsv with
        | .content d => Sum.inl d
        | .readError m => Sum.inr ("ERROR: Failed to read leads.csv: " ++ m)
        | .absent =>
            if truthy business_name then Sum.inl (single_lead_df (business_name.getD ""))
            else Sum.inr "ERROR: No leads data found. Upload a CSV or place 'leads.csv' in working directory."
  match src with
  | Sum.inr e => (Sum.inr e, st)
  | Sum.inl df =>
      if df_has_columns df ["Business_Name", "Product_Focus", "AI_Pitch_Sample"] then
        let r := call_gemini_seq env (df.rows.map leads_prompt) st
        let dfE := df.setCol "Generated_Email" r.1
        (Sum.inl (dfE.setCol "Status" (List.replicate dfE.rows.length "Processed")), r.2)
      else
        (Sum.inr "ERROR: Missing required columns. Need ['Business_Name', 'Product_Focus', 'AI_Pitch_Sample']", st)

/-- One h1/h2/h3 element of the fetched page, in document order: its tag name
and its `get_text(separator=" ", strip=True)` text. -/
structure Heading where
  name : String
  text : String
deriving DecidableEq, Repr

/-- Parsed content of the fetched page, as seen by the BeautifulSoup queries
of `fn_scraper`: `titleString` is `soup.title.string` when the title tag
exists with a string; the meta fields are `some c` when the corresponding
meta tag exists, with `c` its optional `content` attribute; `headings` and
`anchors` list every matching element in document order. -/
structure Page where
  titleString : Option String
  metaNameDescription : Option (Option String)
  metaOgDescription : Option (Option String)
  headings : List Heading
  anchors : List (String × String)
deriving DecidableEq, Repr

/-- Result of `requests.get` inside `fn_scraper`: either the request raised,
or a response came back with a status code, reason phrase, parsed page and
final URL. -/
inductive HttpResult
  | exn (msg : String)
  | resp (status : Nat) (reason : String) (page : Page) (finalUrl : String)

/-- Structured record returned by `fn_scraper` on success
(AI_HustleHub.py lines 318-326). -/
structure ScrapeResult where
  status : String
  title : String
  meta_description : String
  headers_preview : List String
  links_preview : List (String × String)
  http_status : Nat
  final_url : String
deriving DecidableEq, Repr

/-- Message of the `requests.HTTPError` raised by `raise_for_status` for a
status code in 400-599 (client error below 500, server error from 500). -/
def raise_for_status_msg (status : Nat) (reason : String) (url : String) : String :=
  if status < 500 then
    toString status ++ " Client Error: " ++ reason ++ " for url: " ++ url
  else
    toString status ++ " Server Error: " ++ reason ++ " for url: " ++ url

/-- Embeds the title extraction of `fn_scraper` (AI_HustleHub.py line 298). -/
def page_title (p : Page) : String :=
  match p.titleString with
  | some s => pyStrip s
  | none => ""

/-- Embeds the meta-description extraction of `fn_scraper`
(AI_HustleHub.py lines 299-302): the first `name=description` tag wins even
when its content is missing or empty; only when no such tag exists is the
`og:description` tag consulted. -/
def meta_description_of (p : Page) : String :=
  let meta : Option (Option String) :=
    match p.metaNameDescription with
    | some c => some c
    | none => p.metaOgDescription
  match meta with
  | some (some c) => if c.isEmpty then "" else pySlice 300 c
  | _ => ""

/-- Embeds the heading extraction of `fn_scraper` (AI_HustleHub.py lines
305-309): the first 10 h1/h2/h3 elements are taken, each text truncated to
120 characters, and only then are empty texts skipped. -/
def headings_preview (hs : List Heading) : List String :=
  (hs.take 10).filterMap (fun h =>
    let txt := pySlice 120 h.text
    if txt.data.isEmpty then none else some (pyUpper h.name ++ ": " ++ txt))

/-- Embeds the link extraction of `fn_scraper` (AI_HustleHub.py lines
312-316): the first 15 anchors with an href, text truncated to 80
characters. -/
def links_preview (anchors : List (String × String)) : List (String × String) :=
  (anchors.take 15).map (fun a => (pySlice 80 a.1, a.2))

/-- Embeds `fn_scraper` (AI_HustleHub.py lines 276-326). -/
def fn_scraper (url : String) (acknowledge : Bool) (net : HttpResult) : ScrapeResult ⊕ String :=
  if url.isEmpty then
    Sum.inr "ERROR: WEBSITE (URL) is required."
  else if !acknowledge then
    Sum.inr "ERROR: Please acknowledge you are responsible for checking the target site's robots.txt and Terms before scraping."
  else
    match net with
    | .exn m => Sum.inr ("ERROR: Request failed: " ++ m)
    | .resp status reason page finalUrl =>
        if 400 ≤ status ∧ status < 600 then
          Sum.inr ("ERROR: Request failed: " ++ raise_for_status_msg status reason finalUrl)
        else
          Sum.inl
            { status := "ok"
              title := page_title page
              meta_description := meta_description_of page
              headers_preview := headings_preview page.headings
              links_preview := links_preview page.anchors
              http_status := status
              final_url := finalUrl }

/-- Text of `EMAIL_TEMPLATE` before its placeholder line
(lead_processor_module.py lines 6-22). -/
def EMAIL_TEMPLATE_HEAD : String :=
  "\nHello,\n\nMy name is Joe, and I'm a local business owner from the Iron Range. I'm reaching out because I specialize in **automated bulk content creation**—a perfect match for businesses like yours.\n\nI use a custom Linux/AI script to take your raw product data and instantly generate **unique, SEO-optimized listings in just 48 hours.**\n\n**Here is the content quality we deliver for your premium line:**\n"

/-- Text of `EMAIL_TEMPLATE` after its placeholder. -/
def EMAIL_TEMPLATE_TAIL : String :=
  "\n\nThis service ensures every item in your store is searchable and ready for the next seasonal rush, dramatically cutting your annual content costs.\n\nI'd appreciate the chance to discuss how a fellow local can help automate this critical bottleneck. I'm available for a quick call or a local handshake if you prefer.\n\nThank you for your time,\nRuralJoe\n"

/-- Embeds `EMAIL_TEMPLATE` (lead_processor_module.py lines 6-22); the
placeholder token occurs exactly once, between head and tail. -/
def EMAIL_TEMPLATE : String :=
  EMAIL_TEMPLATE_HEAD ++ "*[AI_PITCH_SAMPLE_PLACEHOLDER]*" ++ EMAIL_TEMPLATE_TAIL

/-- Embeds `EMAIL_TEMPLATE.replace('*[AI_PITCH_SAMPLE_PLACEHOLDER]*', pitch)`
on the single placeholder occurrence of the fixed template. -/
def assemble_email_body (pitch : String) : String :=
  EMAIL_TEMPLATE_HEAD ++ pitch ++ EMAIL_TEMPLATE_TAIL

/-- Mutable state of the tkinter module: the `LEAD_DATA` global, the output
text box content, and the status label text. -/
structure TkState where
  lead_data : List Row
  text_output : String
  status : String
deriving DecidableEq, Repr

/-- Embeds `update_status` (lead_processor_module.py line 87): the label text
set for a message. -/
def update_status (message : String) : String :=
  "Status: " ++ message

/-- Result of opening and iterating `leads.csv` with `csv.DictReader`:
the file may be missing (`FileNotFoundError` at `open`), iterate to the end
yielding all rows, or raise after yielding a prefix of the rows. -/
inductive CsvReadResult
  | notFound
  | readRows (rs : List Row)
  | failsAfter (pre : List Row) (err : String)

/-- Embeds `load_leads_from_csv` (lead_processor_module.py lines 29-51):
`LEAD_DATA` is cleared, then rows are appended one by one inside the `try`;
the listbox repopulation is presentation only and not modelled. -/
def load_leads_from_csv (file : CsvReadResult) (st : TkState) : TkState :=
  match file with
  | .notFound =>
      { st with lead_data := []
                status := update_status "ERROR: 'leads.csv' not found. Please create the file." }
  | .readRows rs =>
      { st with lead_data := rs
                status := update_status ("Successfully loaded " ++ toString rs.length ++ " leads.") }
  | .failsAfter pre err =>
      { st with lead_data := pre
                status := update_status ("ERROR loading CSV: " ++ err) }

/-- Fifty hyphens, embedding Python `'-'*50`. -/
def dash50 : String :=
  String.mk (List.replicate 50 '-')

/-- Embeds `generate_email_on_click` (lead_processor_module.py lines 53-85).
`selection` is the tuple returned by `curselection()`; an empty tuple or an
index past `LEAD_DATA` raises `IndexError`, caught by the handler; a missing
dict key raises `KeyError`, caught by the generic handler, in the access
order of the source (Product_Focus, AI_Pitch_Sample, Business_Name,
Contact_Email). -/
def generate_email_on_click (selection : List Nat) (st : TkState) : TkState :=
  match selection with
  | [] => { st with status := update_status "Please select a lead to generate the email." }
  | idx :: _ =>
      match st.lead_data[idx]? with
      | none => { st with status := update_status "Please select a lead to generate the email." }
      | some lead =>
          match Row.getVal lead "Product_Focus" with
          | none => { st with status := update_status "Generation ERROR: 'Product_Focus'" }
          | some focus =>
              match Row.getVal lead "AI_Pitch_Sample" with
              | none => { st with status := update_status "Generation ERROR: 'AI_Pitch_Sample'" }
              | some pitch =>
                  match Row.getVal lead "Business_Name" with
                  | none => { st with status := update_status "Generation ERROR: 'Business_Name'" }
                  | some bname =>
                      match Row.getVal lead "Contact_Email" with
                      | none => { st with status := update_status "Generation ERROR: 'Contact_Email'" }
                      | some cemail =>
                          let subject_line :=
                            "Local AI: Automating Descriptions for Your " ++ focus
                          let email_body := assemble_email_body pitch
                          let final_output :=
                            "**LEAD: " ++ pyUpper bname ++ " **\n" ++ dash50 ++ "\n"
                              ++ "**TO:** " ++ cemail ++ "\n"
                              ++ "**SUBJECT:** " ++ subject_line ++ "\n" ++ dash50 ++ "\n"
                              ++ "*** COPY EMAIL BODY BELOW ***\n\n" ++ email_body
                          { lead_data := st.lead_data
                            text_output := final_output
                            status := update_status ("Email generated for: " ++ bname) }

/-- Session oracle for the C1 witness: a normal response, then an exception,
then a whitespace-only response. -/
def c1Env : GemEnv :=
  { available := true
    outcome := fun i =>
      if i = 0 then ApiOutcome.ok "hello"
      else if i = 1 then ApiOutcome.exn "boom"
      else ApiOutcome.ok " " }

/-- Session oracle whose API invocations always return empty text (C1
counterexample). -/
def c1EmptyEnv : GemEnv :=
  { available := true
    outcome := fun _ => ApiOutcome.ok "" }

/-- Session oracle whose API invocations always raise (C2 statements). -/
def c2Env : GemEnv :=
  { available := true
    outcome := fun _ => ApiOutcome.exn "down" }

/-- Product table with the required columns (C2 witness input). -/
def c2ProdDf : DF :=
  { cols := ["Title", "Features", "Keywords"]
    rows := [[("Title", "Mug"), ("Features", "Ceramic"), ("Keywords", "mug")],
             [("Title", "Hat"), ("Features", "Wool"), ("Keywords", "hat")]] }

/-- Leads table with the required columns (C2 witness and counterexample
input). -/
def c2LeadsDf : DF :=
  { cols := ["Business_Name", "Product_Focus", "AI_Pitch_Sample"]
    rows := [[("Business_Name", "Acme"), ("Product_Focus", "Boots"),
              ("AI_Pitch_Sample", "Pitch")]] }

/-- Page with eleven h1-h3 elements, the first with empty text (C3
counterexample input). -/
def c3Headings : List Heading :=
  { name := "h1", text := "" } :: List.replicate 10 { name := "h2", text := "Intro" }

/-- Page with eleven h1-h3 elements, all with non-empty text (C3 witness
input). -/
def c3GoodHeadings : List Heading :=
  List.replicate 11 { name := "h2", text := "Intro" }

/-- Session oracle whose API invocations always return text (C4 and C9
witness input). -/
def c4Env : GemEnv :=
  { available := true
    outcome := fun _ => ApiOutcome.ok "generated" }

/-- Product table missing the Features and Keywords columns (C4 witness
input). -/
def c4ProdDf : DF :=
  { cols := ["Title"]
    rows := [[("Title", "Mug")]] }

/-- Leads table missing the Product_Focus and AI_Pitch_Sample columns (C4
witness input). -/
def c4LeadsDf : DF :=
  { cols := ["Business_Name"]
    rows := [[("Business_Name", "Acme")]] }

/-- Parsed page with no title, meta tags, headings or anchors (C5
statements). -/
def c5Page : Page :=
  { titleString := none
    metaNameDescription := none
    metaOgDescription := none
    headings := []
    anchors := [] }

/-- Loaded desktop state with a single complete lead row (C8 witness
input). -/
def c8St : TkState :=
  { lead_data := [[("Business_Name", "Acme"), ("Contact_Email", "a@b.example"),
                   ("Product_Focus", "Boots"), ("AI_Pitch_Sample", "Pitch")]]
    text_output := ""
    status := "Status: Ready. Load 'leads.csv'." }

/-- Lead row yielded before a mid-file read failure (C10 statements). -/
def c10Row : Row :=
  [("Business_Name", "Acme")]

/-- Desktop state holding a previously loaded lead set (C10 counterexample
input). -/
def c10PrevSt : TkState :=
  { lead_data := [[("Business_Name", "Old")]]
    text_output := ""
    status := "Status: Successfully loaded 1 leads." }

/-- Helper: state after one wrapped call, client available. -/
theorem call_gemini_state (env : GemEnv) (hav : env.available = true) (p : String)
    (st : GemState) :
    (call_gemini env p st).2 =
      { calls_made := st.calls_made + 1
        api_calls := st.api_calls + (if isOkOutcome (env.outcome st.calls_made) then 1 else 0) } := by
  cases h : env.outcome st.calls_made <;>
    simp [call_gemini, hav, h, isOkOutcome, _count_api_call]

/-- Helper: text returned by one wrapped call, client available. -/
theorem call_gemini_text (env : GemEnv) (hav : env.available = true) (p : String)
    (st : GemState) :
    (call_gemini env p st).1 = outcomeText (env.outcome st.calls_made) := by
  cases h : env.outcome st.calls_made <;> simp [call_gemini, hav, h]

/-- Helper: the per-row loop yields one text per prompt. -/
theorem call_gemini_seq_length (env : GemEnv) (ps : List String) (st : GemState) :
    (call_gemini_seq env ps st).1.length = ps.length := by
  induction ps generalizing st with
  | nil => rfl
  | cons p ps ih => simp [call_gemini_seq, ih]

/-- Helper: total invocations made by the loop. -/
theorem call_gemini_seq_calls (env : GemEnv) (hav : env.available = true)
    (ps : List String) (st : GemState) :
    (call_gemini_seq env ps st).2.calls_made = st.calls_made + ps.length := by
  induction ps generalizing st with
  | nil => simp [call_gemini_seq]
  | cons p ps ih =>
      simp only [call_gemini_seq]
      rw [ih, call_gemini_state env hav]
      simp only [List.length_cons]
      omega

/-- Helper: counter movement of the loop. -/
theorem call_gemini_seq_api (env : GemEnv) (hav : env.available = true)
    (ps : List String) (st : GemState) :
    (call_gemini_seq env ps st).2.api_calls
      = st.api_calls + countOk env st.calls_made ps.length := by
  induction ps generalizing st with
  | nil => simp [call_gemini_seq, countOk]
  | cons p ps ih =>
      simp only [call_gemini_seq, List.length_cons]
      rw [ih, call_gemini_state env hav]
      simp only [countOk]
      cases hOk : isOkOutcome (env.outcome st.calls_made) <;> simp [hOk] <;> omega

/-- Helper: texts returned by the loop, in row order, one per oracle index. -/
theorem call_gemini_seq_texts (env : GemEnv) (hav : env.available = true)
    (ps : List String) (st : GemState) :
    (call_gemini_seq env ps st).1
      = (List.range ps.length).map (fun i => outcomeText (env.outcome (st.calls_made + i))) := by
  induction ps generalizing st with
  | nil => simp [call_gemini_seq]
  | cons p ps ih =>
      simp only [call_gemini_seq, List.length_cons, List.range_succ_eq_map, List.map_cons,
        List.map_map]
      refine List.cons_eq_cons.mpr ⟨?_, ?_⟩
      case _ =>
        rw [call_gemini_text env hav]
        simp
      case _ =>
        rw [ih, call_gemini_state env hav]
        refine List.map_congr_left ?_
        intro i _
        simp only [Function.comp]
        congr 2
        omega

/-- Helper: looking up the key of a mapped in-place update. -/
theorem getVal_map_set (k v : String) (r : Row) (h : r.any (fun p => p.1 == k) = true) :
    Row.getVal (r.map (fun p => if p.1 == k then (p.1, v) else p)) k = some v := by
  induction r with
  | nil => simp at h
  | cons a t ih =>
      cases ha : (a.1 == k) with
      | true => simp [Row.getVal, ha]
      | false =>
          have ht : t.any (fun p => p.1 == k) = true := by
            simpa [List.any_cons, ha] using h
          simpa [Row.getVal, ha] using ih ht

/-- Helper: looking up an appended key absent from the original row. -/
theorem getVal_append_new (k v : String) (r : Row) (h : r.any (fun p => p.1 == k) = false) :
    Row.getVal (r ++ [(k, v)]) k = some v := by
  induction r with
  | nil => simp [Row.getVal]
  | cons a t ih =>
      rw [List.any_cons, Bool.or_eq_false_iff] at h
      simpa [Row.getVal, h.1] using ih h.2

/-- Helper: reading back the cell just set. -/
theorem getVal_set (r : Row) (k v : String) :
    Row.getVal (Row.set r k v) k = some v := by
  unfold Row.set
  cases hAny : r.any (fun p => p.1 == k) with
  | true => simpa [hAny] using getVal_map_set k v r hAny
  | false => simpa [hAny] using getVal_append_new k v r hAny

/-- Helper: an in-place update at one key does not change lookups at another. -/
theorem getVal_map_ne (k k' v : String) (hne : (k' == k) = false) (r : Row) :
    Row.getVal (r.map (fun p => if p.1 == k then (p.1, v) else p)) k' = Row.getVal r k' := by
  induction r with
  | nil => rfl
  | cons a t ih =>
      cases ha : (a.1 == k') with
      | true =>
          have hak : (a.1 == k) = false := by
            have h1 : a.1 = k' := by simpa using ha
            subst h1
            exact hne
          simp [Row.getVal, ha, hak]
      | false =>
          cases hak : (a.1 == k) with
          | true => simpa [Row.getVal, ha, hak] using ih
          | false => simpa [Row.getVal, ha, hak] using ih

/-- Helper: appending a binding at one key does not change lookups at another. -/
theorem getVal_append_ne (k k' v : String) (hkk : (k == k') = false) (r : Row) :
    Row.getVal (r ++ [(k, v)]) k' = Row.getVal r k' := by
  induction r with
  | nil => simp [Row.getVal, hkk]
  | cons a t ih =>
      cases ha : (a.1 == k') with
      | true => simp [Row.getVal, ha]
      | false => simpa [Row.getVal, ha] using ih

/-- Helper: setting one key leaves every other key unchanged. -/
theorem getVal_set_ne (r : Row) (k k' v : String) (hne : (k' == k) = false) :
    Row.getVal (Row.set r k v) k' = Row.getVal r k' := by
  have hkk : (k == k') = false := by
    rw [beq_eq_false_iff_ne] at hne ⊢
    exact fun h => hne h.symm
  unfold Row.set
  cases hAny : r.any (fun p => p.1 == k) with
  | true => simpa [hAny] using getVal_map_ne k k' v hne r
  | false => simpa [hAny] using getVal_append_ne k k' v hkk r

/-- Helper: reading the freshly assigned column over zipped, updated rows. -/
theorem map_getVal_zip_set (k : String) :
    ∀ (rs : List Row) (vs : List String), vs.length = rs.length →
      ((rs.zip vs).map (fun rv => Row.set rv.1 k rv.2)).map (fun r => Row.getVal r k)
        = vs.map some := by
  intro rs
  induction rs with
  | nil =>
      intro vs h
      rw [List.length_nil, List.length_eq_zero] at h
      subst h
      rfl
  | cons r rs ih =>
      intro vs h
      cases vs with
      | nil => simp at h
      | cons v vs' =>
          simp only [List.zip_cons_cons, List.map_cons]
          rw [getVal_set, ih vs' (by simpa using h)]

/-- Helper: reading a different column over zipped, updated rows. -/
theorem map_getVal_zip_set_ne (k k' : String) (hne : (k' == k) = false) :
    ∀ (rs : List Row) (vs : List String), vs.length = rs.length →
      ((rs.zip vs).map (fun rv => Row.set rv.1 k rv.2)).map (fun r => Row.getVal r k')
        = rs.map (fun r => Row.getVal r k') := by
  intro rs
  induction rs with
  | nil =>
      intro vs h
      rw [List.length_nil, List.length_eq_zero] at h
      subst h
      rfl
  | cons r rs ih =>
      intro vs h
      cases vs with
      | nil => simp at h
      | cons v vs' =>
          simp only [List.zip_cons_cons, List.map_cons]
          rw [getVal_set_ne _ _ _ _ hne, ih vs' (by simpa using h)]

/-- Helper: column list after assigning a fresh column. -/
theorem setCol_cols (df : DF) (k : String) (vs : List String)
    (h : df.cols.contains k = false) :
    (df.setCol k vs).cols = df.cols ++ [k] := by
  have h' : k ∉ df.cols := by simpa using h
  simp [DF.setCol, h']

/-- Helper: row count is preserved by a full-length column assignment. -/
theorem setCol_rows_length (df : DF) (k : String) (vs : List String)
    (h : vs.length = df.rows.length) :
    (df.setCol k vs).rows.length = df.rows.length := by
  simp [DF.setCol, List.length_zip, h]

/-- Helper: the assigned column reads back, in row order. -/
theorem setCol_map_getVal (df : DF) (k : String) (vs : List String)
    (h : vs.length = df.rows.length) :
    (df.setCol k vs).rows.map (fun r => Row.getVal r k) = vs.map some := by
  simp only [DF.setCol]
  exact map_getVal_zip_set k df.rows vs h

/-- Helper: other columns are untouched by a full-length column assignment. -/
theorem setCol_map_getVal_ne (df : DF) (k k' : String) (vs : List String)
    (hne : (k' == k) = false) (h : vs.length = df.rows.length) :
    (df.setCol k vs).rows.map (fun r => Row.getVal r k')
      = df.rows.map (fun r => Row.getVal r k') := by
  simp only [DF.setCol]
  exact map_getVal_zip_set_ne k k' hne df.rows vs h

/-- C1, counterexample: with the client available, an API invocation that
returns empty text makes `call_gemini` return the empty-response error
string, yet the process-wide success counter still increases by 1 — the
claim requires an increase of 0 for a call returning an empty response. -/
theorem C1_counterexample_empty_counted :
    (call_gemini c1EmptyEnv "p" { calls_made := 0, api_calls := 0 }).1
        = "ERROR: Empty response from model."
    ∧ (call_gemini c1EmptyEnv "p" { calls_made := 0, api_calls := 0 }).2.api_calls = 1 :=
  ⟨rfl, rfl⟩

/-- C1, amended: across any sequence of calls to the generation wrapper with
the client available, the success counter increases by exactly 1 for every
call whose underlying API invocation returns — including invocations whose
text is empty, which `call_gemini` reports as an error string — and by 0 for
every call whose invocation raises. -/
theorem C1_success_counter (env : GemEnv) (hav : env.available = true)
    (ps : List String) (st : GemState) :
    (call_gemini_seq env ps st).2.api_calls
      = st.api_calls + countOk env st.calls_made ps.length
    ∧ (call_gemini_seq env ps st).2.calls_made = st.calls_made + ps.length :=
  ⟨call_gemini_seq_api env hav ps st, call_gemini_seq_calls env hav ps st⟩

/-- C1, witness: three calls — a normal response, an exception, and a
whitespace-only response — move the counter by exactly 2. -/
theorem C1_success_counter_witness :
    c1Env.available = true
    ∧ ((call_gemini_seq c1Env ["a", "b", "c"] { calls_made := 0, api_calls := 0 }).2.api_calls
          = 0 + countOk c1Env 0 3
        ∧ (call_gemini_seq c1Env ["a", "b", "c"] { calls_made := 0, api_calls := 0 }).2.calls_made
          = 0 + 3)
    ∧ countOk c1Env 0 3 = 2 :=
  ⟨rfl, C1_success_counter c1Env rfl ["a", "b", "c"] { calls_made := 0, api_calls := 0 }, rfl⟩

/-- Helper: the heading filter keeps every heading whose text is non-empty. -/
theorem headings_filterMap_of_nonempty :
    ∀ (l : List Heading), (∀ h ∈ l, h.text.data.isEmpty = false) →
      (l.filterMap (fun h =>
          let txt := pySlice 120 h.text
          if txt.data.isEmpty then none else some (pyUpper h.name ++ ": " ++ txt)))
        = l.map (fun h => pyUpper h.name ++ ": " ++ pySlice 120 h.text) := by
  intro l
  induction l with
  | nil => intro _; rfl
  | cons a t ih =>
      intro hl
      have ha : (pySlice 120 a.text).data.isEmpty = false := by
        have h1 := hl a (by simp)
        cases hd : a.text.data with
        | nil => rw [hd] at h1; simp at h1
        | cons c cs => simp [pySlice, hd]
      simp only [List.filterMap_cons, ha, Bool.false_eq_true, if_false]
      rw [List.map_cons, ih (fun h hm => hl h (by simp [hm]))]

/-- C3, counterexample: a page with eleven heading elements of levels 1-3,
the first of which has empty text, yields only 9 heading strings — not
exactly 10 as the claim requires for every page with more than 10 matching
headings. -/
theorem C3_counterexample_empty_heading :
    10 < c3Headings.length
    ∧ (headings_preview c3Headings).length = 9
    ∧ (headings_preview c3Headings).length ≠ 10 :=
  ⟨by decide, rfl, by decide⟩

/-- C3, amended: for a page with more than 10 heading elements of levels 1-3
in which each of the first 10 has non-empty text, the scraper returns exactly
10 heading strings, in document order, each made of the upper-cased level
name, a separator, and the heading text truncated to at most 120
characters. -/
theorem C3_headings_preview (hs : List Heading) (h10 : 10 < hs.length)
    (hne : ∀ h ∈ hs.take 10, h.text.data.isEmpty = false) :
    headings_preview hs
      = (hs.take 10).map (fun h => pyUpper h.name ++ ": " ++ pySlice 120 h.text)
    ∧ (headings_preview hs).length = 10
    ∧ ∀ h ∈ hs.take 10, (pySlice 120 h.text).length ≤ 120 := by
  have hmap : headings_preview hs
      = (hs.take 10).map (fun h => pyUpper h.name ++ ": " ++ pySlice 120 h.text) := by
    unfold headings_preview
    exact headings_filterMap_of_nonempty (hs.take 10) hne
  refine ⟨hmap, ?_, ?_⟩
  · rw [hmap, List.length_map, List.length_take]
    omega
  · intro h _
    have hlen : (pySlice 120 h.text).length = (h.text.data.take 120).length := rfl
    rw [hlen, List.length_take]
    exact min_le_left _ _

/-- C3, witness: eleven headings, all non-empty, give exactly 10 strings. -/
theorem C3_headings_preview_witness :
    (10 < c3GoodHeadings.length
      ∧ ∀ h ∈ c3GoodHeadings.take 10, h.text.data.isEmpty = false)
    ∧ (headings_preview c3GoodHeadings
        = (c3GoodHeadings.take 10).map (fun h => pyUpper h.name ++ ": " ++ pySlice 120 h.text)
      ∧ (headings_preview c3GoodHeadings).length = 10
      ∧ ∀ h ∈ c3GoodHeadings.take 10, (pySlice 120 h.text).length ≤ 120) :=
  ⟨⟨by decide, by decide⟩,
    C3_headings_preview c3GoodHeadings (by decide) (by decide)⟩

/-- C4: for any input table missing at least one required column — supplied
explicitly or read from the fallback CSV file — both augmentation tools
return the fixed missing-columns error string and leave the session state
untouched: no generation call is made. -/
theorem C4_missing_columns (env : GemEnv) (cpd bn : Option String)
    (df dfL : DF) (csv csvL : CsvFile) (st stL : GemState)
    (hP : df_has_columns df ["Title", "Features", "Keywords"] = false)
    (hL : df_has_columns dfL ["Business_Name", "Product_Focus", "AI_Pitch_Sample"] = false) :
    fn_product_automator env cpd (some df) csv st
      = (Sum.inr "ERROR: Missing required columns. Need ['Title', 'Features', 'Keywords']", st)
    ∧ fn_product_automator env cpd none (CsvFile.content df) st
      = (Sum.inr "ERROR: Missing required columns. Need ['Title', 'Features', 'Keywords']", st)
    ∧ fn_leads_processor env bn (some dfL) csvL stL
      = (Sum.inr "ERROR: Missing required columns. Need ['Business_Name', 'Product_Focus', 'AI_Pitch_Sample']", stL)
    ∧ fn_leads_processor env bn none (CsvFile.content dfL) stL
      = (Sum.inr "ERROR: Missing required columns. Need ['Business_Name', 'Product_Focus', 'AI_Pitch_Sample']", stL) := by
  refine ⟨?_, ?_, ?_, ?_⟩ <;> simp [fn_product_automator, fn_leads_processor, hP, hL]

/-- C4, witness: concrete tables each missing required columns make both
tools return the error with zero calls made. -/
theorem C4_missing_columns_witness :
    (df_has_columns c4ProdDf ["Title", "Features", "Keywords"] = false
      ∧ df_has_columns c4LeadsDf ["Business_Name", "Product_Focus", "AI_Pitch_Sample"] = false)
    ∧ (fn_product_automator c4Env none (some c4ProdDf) CsvFile.absent
          { calls_made := 0, api_calls := 0 }
        = (Sum.inr "ERROR: Missing required columns. Need ['Title', 'Features', 'Keywords']",
           { calls_made := 0, api_calls := 0 })
      ∧ fn_product_automator c4Env none none (CsvFile.content c4ProdDf)
          { calls_made := 0, api_calls := 0 }
        = (Sum.inr "ERROR: Missing required columns. Need ['Title', 'Features', 'Keywords']",
           { calls_made := 0, api_calls := 0 })
      ∧ fn_leads_processor c4Env none (some c4LeadsDf) CsvFile.absent
          { calls_made := 0, api_calls := 0 }
        = (Sum.inr "ERROR: Missing required columns. Need ['Business_Name', 'Product_Focus', 'AI_Pitch_Sample']",
           { calls_made := 0, api_calls := 0 })
      ∧ fn_leads_processor c4Env none none (CsvFile.content c4LeadsDf)
          { calls_made := 0, api_calls := 0 }
        = (Sum.inr "ERROR: Missing required columns. Need ['Business_Name', 'Product_Focus', 'AI_Pitch_Sample']",
           { calls_made := 0, api_calls := 0 })) :=
  ⟨⟨rfl, rfl⟩,
    C4_missing_columns c4Env none none c4ProdDf c4LeadsDf CsvFile.absent CsvFile.absent
      { calls_made := 0, api_calls := 0 } { calls_made := 0, api_calls := 0 } rfl rfl⟩

/-- C5, counterexample: an HTTP 304 response — a non-2xx, hence non-success,
status — passes `raise_for_status` untouched, so the scraper returns a
structured record rather than a wrapped error string. -/
theorem C5_counterexample_304 :
    fn_scraper "https://example.com" true
        (HttpResult.resp 304 "Not Modified" c5Page "https://example.com")
      = Sum.inl
          { status := "ok", title := "", meta_description := "", headers_preview := []
            links_preview := [], http_status := 304, final_url := "https://example.com" }
    ∧ ¬(200 ≤ 304 ∧ 304 < 300) :=
  ⟨rfl, by decide⟩

/-- C5, amended: with a non-empty URL and the acknowledgement given, the
scraper returns the single wrapped error string for every transport failure
and for every HTTP status in 400-599 (the exact range `raise_for_status`
raises for); no exception escapes — the embedded function is total.  Non-2xx
statuses outside 400-599 (such as 304) instead yield the structured
record. -/
theorem C5_request_failures (url : String) (hu : url.isEmpty = false)
    (m reason finalUrl : String) (page : Page) (status : Nat)
    (h4 : 400 ≤ status) (h6 : status < 600) :
    fn_scraper url true (HttpResult.exn m) = Sum.inr ("ERROR: Request failed: " ++ m)
    ∧ fn_scraper url true (HttpResult.resp status reason page finalUrl)
      = Sum.inr ("ERROR: Request failed: " ++ raise_for_status_msg status reason finalUrl) := by
  constructor
  · simp [fn_scraper, hu]
  · simp [fn_scraper, hu, h4, h6]

/-- C5, witness: a 404 response and a transport failure both come back as
wrapped error strings. -/
theorem C5_request_failures_witness :
    ("https://example.com/trends".isEmpty = false ∧ 400 ≤ 404 ∧ 404 < 600)
    ∧ (fn_scraper "https://example.com/trends" true (HttpResult.exn "connection refused")
        = Sum.inr ("ERROR: Request failed: " ++ "connection refused")
      ∧ fn_scraper "https://example.com/trends" true
          (HttpResult.resp 404 "Not Found" c5Page "https://example.com/trends")
        = Sum.inr ("ERROR: Request failed: "
            ++ raise_for_status_msg 404 "Not Found" "https://example.com/trends")) :=
  ⟨⟨rfl, by decide, by decide⟩,
    C5_request_failures "https://example.com/trends" rfl "connection refused" "Not Found"
      "https://example.com/trends" c5Page 404 (by decide) (by decide)⟩

/-- C6: a non-empty explicit topic is echoed back by the topic generator with
only the fixed echo prefix, the shared topic-resolution step returns it
unchanged whatever the fallback file holds, and the long-form tool's result
does not depend on the fallback file at all. -/
theorem C6_explicit_topic_wins (t : String) (ht : t.isEmpty = false) (env : GemEnv)
    (st : GemState) (topicFile topicFile' : Option String) :
    fn_topic_generator env (some t) st = ("(Using provided topic)\n" ++ t, st)
    ∧ resolve_topic (some t) topicFile = some t
    ∧ fn_long_form env (some t) topicFile st = fn_long_form env (some t) topicFile' st := by
  refine ⟨?_, ?_, ?_⟩ <;> simp [fn_topic_generator, resolve_topic, fn_long_form, truthy, ht]

/-- C6, witness: the explicit topic "urban beekeeping" is echoed unchanged
whether the fallback file is present or absent. -/
theorem C6_explicit_topic_wins_witness :
    ("urban beekeeping".isEmpty = false)
    ∧ (fn_topic_generator c1EmptyEnv (some "urban beekeeping") { calls_made := 0, api_calls := 0 }
        = ("(Using provided topic)\n" ++ "urban beekeeping", { calls_made := 0, api_calls := 0 })
      ∧ resolve_topic (some "urban beekeeping") (some "file topic") = some "urban beekeeping"
      ∧ fn_long_form c1EmptyEnv (some "urban beekeeping") (some "file topic")
          { calls_made := 0, api_calls := 0 }
        = fn_long_form c1EmptyEnv (some "urban beekeeping") none
          { calls_made := 0, api_calls := 0 }) :=
  ⟨rfl, C6_explicit_topic_wins "urban beekeeping" rfl c1EmptyEnv
    { calls_made := 0, api_calls := 0 } (some "file topic") none⟩

/-- C7: with an empty (or absent) topic input and no fallback topic file,
each of the three topic-dependent tools returns the fixed no-topic error
string and leaves the session state untouched: no generation call is
made. -/
theorem C7_no_topic_no_call (env : GemEnv) (st : GemState) (topic : Option String)
    (ht : truthy topic = false) :
    fn_long_form env topic none st = (no_topic_error, st)
    ∧ fn_short_form env topic none st = (no_topic_error, st)
    ∧ fn_captions env topic none st = (no_topic_error, st) := by
  have h0 : truthy none = false := rfl
  refine ⟨?_, ?_, ?_⟩ <;>
    simp [fn_long_form, fn_short_form, fn_captions, resolve_topic, load_topic_from_file, ht, h0]

/-- C7, witness: the empty-string topic with no file yields the error from
all three tools with the state unchanged. -/
theorem C7_no_topic_no_call_witness :
    truthy (some "") = false
    ∧ (fn_long_form c1EmptyEnv (some "") none { calls_made := 0, api_calls := 0 }
        = (no_topic_error, { calls_made := 0, api_calls := 0 })
      ∧ fn_short_form c1EmptyEnv (some "") none { calls_made := 0, api_calls := 0 }
        = (no_topic_error, { calls_made := 0, api_calls := 0 })
      ∧ fn_captions c1EmptyEnv (some "") none { calls_made := 0, api_calls := 0 }
        = (no_topic_error, { calls_made := 0, api_calls := 0 })) :=
  ⟨rfl, C7_no_topic_no_call c1EmptyEnv { calls_made := 0, api_calls := 0 } (some "") rfl⟩

/-- C8: clicking with no row selected, or with a selection index past the
loaded lead list, sets the distinct "please select" status message and
changes neither the loaded lead data nor the output box. -/
theorem C8_select_nonexistent (selection : List Nat) (st : TkState)
    (h : selection = [] ∨ ∃ i rest, selection = i :: rest ∧ st.lead_data.length ≤ i) :
    (generate_email_on_click selection st).status
        = update_status "Please select a lead to generate the email."
    ∧ (generate_email_on_click selection st).lead_data = st.lead_data
    ∧ (generate_email_on_click selection st).text_output = st.text_output := by
  rcases h with h | ⟨i, rest, hsel, hlen⟩
  · subst h
    exact ⟨rfl, rfl, rfl⟩
  · subst hsel
    have hnone : st.lead_data[i]? = none := List.getElem?_eq_none hlen
    refine ⟨?_, ?_, ?_⟩ <;> simp [generate_email_on_click, hnone]

/-- C8, witness: selecting index 5 in a one-lead list yields the "please
select" status with the lead list and output box unchanged. -/
theorem C8_select_nonexistent_witness :
    ([5] = ([] : List Nat) ∨ ∃ i rest, (5 :: []) = i :: rest ∧ c8St.lead_data.length ≤ i)
    ∧ ((generate_email_on_click [5] c8St).status
        = update_status "Please select a lead to generate the email."
      ∧ (generate_email_on_click [5] c8St).lead_data = c8St.lead_data
      ∧ (generate_email_on_click [5] c8St).text_output = c8St.text_output) :=
  ⟨Or.inr ⟨5, [], rfl, by decide⟩,
    C8_select_nonexistent [5] c8St (Or.inr ⟨5, [], rfl, by decide⟩)⟩

/-- C10, counterexample: a read that fails after yielding one row leaves that
row in the in-memory lead list — the list is not empty after this failing
read, as the claim requires; only the previously loaded set is gone. -/
theorem C10_counterexample_partial_read :
    (load_leads_from_csv (CsvReadResult.failsAfter [c10Row] "bad byte") c10PrevSt).lead_data
      = [c10Row]
    ∧ (load_leads_from_csv (CsvReadResult.failsAfter [c10Row] "bad byte") c10PrevSt).status
      = update_status "ERROR loading CSV: bad byte"
    ∧ [c10Row] ≠ ([] : List Row) :=
  ⟨rfl, rfl, by decide⟩

/-- C10, amended: the lead list is cleared before the read, so the resulting
list never depends on the previously loaded set: it is empty when the file
is missing, holds all rows on a full read, and holds exactly the prefix of
rows yielded before the failure when the read fails midway. -/
theorem C10_clear_before_read (file : CsvReadResult) (st st' : TkState) :
    (load_leads_from_csv file st).lead_data
      = (match file with
          | CsvReadResult.notFound => []
          | CsvReadResult.readRows rs => rs
          | CsvReadResult.failsAfter pre _ => pre)
    ∧ (load_leads_from_csv file st).lead_data = (load_leads_from_csv file st').lead_data := by
  cases file <;> exact ⟨rfl, rfl⟩

/-- C2, counterexample: on a leads table with the required columns and one
row, the leads processor appends two new columns (Generated_Email and
Status), not exactly one as the claim requires of the augmentation step; the
failed generation's error text does appear in the row. -/
theorem C2_counterexample_two_new_columns :
    ((fn_leads_processor c2Env none (some c2LeadsDf) CsvFile.absent
        { calls_made := 0, api_calls := 0 }).1
      = Sum.inl
          { cols := ["Business_Name", "Product_Focus", "AI_Pitch_Sample",
                     "Generated_Email", "Status"]
            rows := [[("Business_Name", "Acme"), ("Product_Focus", "Boots"),
                      ("AI_Pitch_Sample", "Pitch"), ("Generated_Email", "ERROR: down"),
                      ("Status", "Processed")]] })
    ∧ ["Business_Name", "Product_Focus", "AI_Pitch_Sample", "Generated_Email",
        "Status"].length = c2LeadsDf.cols.length + 2 :=
  ⟨rfl, rfl⟩

/-- C2, amended: for an input table with the required columns and N rows, the
augmentation step returns a table of the same N rows, with the generated
values in input row order — the call for row i uses the i-th API invocation,
and a failed invocation leaves its error text as that row's cell.
`fn_product_automator` appends exactly one new column
(Generated_Description); `fn_leads_processor` appends exactly two
(Generated_Email and Status). -/
theorem C2_augmentation_shape (env : GemEnv) (hav : env.available = true)
    (cpd : Option String) (df dfL : DF) (csv csvL : CsvFile) (st stL : GemState)
    (hP : df_has_columns df ["Title", "Features", "Keywords"] = true)
    (hPn : df.cols.contains "Generated_Description" = false)
    (hL : df_has_columns dfL ["Business_Name", "Product_Focus", "AI_Pitch_Sample"] = true)
    (hLe : dfL.cols.contains "Generated_Email" = false)
    (hLs : dfL.cols.contains "Status" = false) :
    (∃ dfO, (fn_product_automator env cpd (some df) csv st).1 = Sum.inl dfO
      ∧ dfO.rows.length = df.rows.length
      ∧ dfO.cols = df.cols ++ ["Generated_Description"]
      ∧ dfO.rows.map (fun r => Row.getVal r "Generated_Description")
          = (List.range df.rows.length).map
              (fun i => some (outcomeText (env.outcome (st.calls_made + i)))))
    ∧ (∃ dfO, (fn_leads_processor env none (some dfL) csvL stL).1 = Sum.inl dfO
      ∧ dfO.rows.length = dfL.rows.length
      ∧ dfO.cols = dfL.cols ++ ["Generated_Email", "Status"]
      ∧ dfO.rows.map (fun r => Row.getVal r "Generated_Email")
          = (List.range dfL.rows.length).map
              (fun i => some (outcomeText (env.outcome (stL.calls_made + i))))
      ∧ dfO.rows.map (fun r => Row.getVal r "Status")
          = List.replicate dfL.rows.length (some "Processed")) := by
  constructor
  · have hlen : (call_gemini_seq env (df.rows.map (product_prompt cpd)) st).1.length
        = df.rows.length := by
      rw [call_gemini_seq_length, List.length_map]
    refine ⟨df.setCol "Generated_Description"
        (call_gemini_seq env (df.rows.map (product_prompt cpd)) st).1, ?_, ?_, ?_, ?_⟩
    · simp [fn_product_automator, hP]
    · exact setCol_rows_length _ _ _ hlen
    · exact setCol_cols _ _ _ hPn
    · rw [setCol_map_getVal _ _ _ hlen, call_gemini_seq_texts env hav, List.length_map,
        List.map_map]
      rfl
  · have hlen : (call_gemini_seq env (dfL.rows.map leads_prompt) stL).1.length
        = dfL.rows.length := by
      rw [call_gemini_seq_length, List.length_map]
    have hlenE : (dfL.setCol "Generated_Email"
        (call_gemini_seq env (dfL.rows.map leads_prompt) stL).1).rows.length
        = dfL.rows.length := setCol_rows_length _ _ _ hlen
    have hrepl : (List.replicate (dfL.setCol "Generated_Email"
        (call_gemini_seq env (dfL.rows.map leads_prompt) stL).1).rows.length "Processed").length
        = (dfL.setCol "Generated_Email"
            (call_gemini_seq env (dfL.rows.map leads_prompt) stL).1).rows.length :=
      List.length_replicate _ _
    have hcolsE : (dfL.setCol "Generated_Email"
        (call_gemini_seq env (dfL.rows.map leads_prompt) stL).1).cols
        = dfL.cols ++ ["Generated_Email"] := setCol_cols _ _ _ hLe
    have hserr : (dfL.setCol "Generated_Email"
        (call_gemini_seq env (dfL.rows.map leads_prompt) stL).1).cols.contains "Status"
        = false := by
      rw [hcolsE]
      have h1 : "Status" ∉ dfL.cols := by simpa using hLs
      simp [h1]
    refine ⟨(dfL.setCol "Generated_Email"
        (call_gemini_seq env (dfL.rows.map leads_prompt) stL).1).setCol "Status"
        (List.replicate (dfL.setCol "Generated_Email"
          (call_gemini_seq env (dfL.rows.map leads_prompt) stL).1).rows.length "Processed"),
        ?_, ?_, ?_, ?_, ?_⟩
    · simp [fn_leads_processor, hL]
    · rw [setCol_rows_length _ _ _ hrepl, hlenE]
    · rw [setCol_cols _ _ _ hserr, hcolsE, List.append_assoc]
      rfl
    · rw [setCol_map_getVal_ne _ _ _ _ (by decide) hrepl,
        setCol_map_getVal _ _ _ hlen, call_gemini_seq_texts env hav, List.length_map,
        List.map_map]
      rfl
    · rw [setCol_map_getVal _ _ _ hrepl, hlenE, List.map_replicate]

/-- C2, witness: a two-row product table and a one-row leads table, under an
always-failing oracle, satisfy the amended shape statement. -/
theorem C2_augmentation_shape_witness :
    (c2Env.available = true
      ∧ df_has_columns c2ProdDf ["Title", "Features", "Keywords"] = true
      ∧ c2ProdDf.cols.contains "Generated_Description" = false
      ∧ df_has_columns c2LeadsDf ["Business_Name", "Product_Focus", "AI_Pitch_Sample"] = true
      ∧ c2LeadsDf.cols.contains "Generated_Email" = false
      ∧ c2LeadsDf.cols.contains "Status" = false)
    ∧ ((∃ dfO, (fn_product_automator c2Env none (some c2ProdDf) CsvFile.absent
            { calls_made := 0, api_calls := 0 }).1 = Sum.inl dfO
        ∧ dfO.rows.length = c2ProdDf.rows.length
        ∧ dfO.cols = c2ProdDf.cols ++ ["Generated_Description"]
        ∧ dfO.rows.map (fun r => Row.getVal r "Generated_Description")
            = (List.range c2ProdDf.rows.length).map
                (fun i => some (outcomeText (c2Env.outcome
                  (({ calls_made := 0, api_calls := 0 } : GemState).calls_made + i)))))
      ∧ (∃ dfO, (fn_leads_processor c2Env none (some c2LeadsDf) CsvFile.absent
            { calls_made := 0, api_calls := 0 }).1 = Sum.inl dfO
        ∧ dfO.rows.length = c2LeadsDf.rows.length
        ∧ dfO.cols = c2LeadsDf.cols ++ ["Generated_Email", "Status"]
        ∧ dfO.rows.map (fun r => Row.getVal r "Generated_Email")
            = (List.range c2LeadsDf.rows.length).map
                (fun i => some (outcomeText (c2Env.outcome
                  (({ calls_made := 0, api_calls := 0 } : GemState).calls_made + i))))
        ∧ dfO.rows.map (fun r => Row.getVal r "Status")
            = List.replicate c2LeadsDf.rows.length (some "Processed"))) :=
  ⟨⟨rfl, rfl, rfl, rfl, rfl, rfl⟩,
    C2_augmentation_shape c2Env rfl none c2ProdDf c2LeadsDf CsvFile.absent CsvFile.absent
      { calls_made := 0, api_calls := 0 } { calls_made := 0, api_calls := 0 }
      rfl rfl rfl rfl rfl⟩

/-- C9: with a non-empty business name, no uploaded table and no leads.csv
present, the leads processor does not return the missing-data error; it
processes a single-row table whose Business_Name is the given name, whose
Product_Focus is "N/A" and whose AI_Pitch_Sample is "Custom AI services.". -/
theorem C9_single_name_fallback (env : GemEnv) (name : String) (hn : name.isEmpty = false)
    (st : GemState) :
    ∃ dfO, (fn_leads_processor env (some name) none CsvFile.absent st).1 = Sum.inl dfO
      ∧ dfO.rows.length = 1
      ∧ dfO.rows.map (fun r => Row.getVal r "Business_Name") = [some name]
      ∧ dfO.rows.map (fun r => Row.getVal r "Product_Focus") = [some "N/A"]
      ∧ dfO.rows.map (fun r => Row.getVal r "AI_Pitch_Sample") = [some "Custom AI services."]
      ∧ ∀ e : String, (fn_leads_processor env (some name) none CsvFile.absent st).1 ≠ Sum.inr e := by
  have ht : truthy (some name) = true := by simp [truthy, hn]
  have hcols : df_has_columns (single_lead_df name)
      ["Business_Name", "Product_Focus", "AI_Pitch_Sample"] = true := rfl
  have hmain : (fn_leads_processor env (some name) none CsvFile.absent st).1
      = Sum.inl (((single_lead_df name).setCol "Generated_Email"
          (call_gemini_seq env ((single_lead_df name).rows.map leads_prompt) st).1).setCol
          "Status" (List.replicate ((single_lead_df name).setCol "Generated_Email"
            (call_gemini_seq env ((single_lead_df name).rows.map leads_prompt) st).1).rows.length
            "Processed")) := by
    simp [fn_leads_processor, ht, hcols]
  refine ⟨_, hmain, rfl, rfl, rfl, rfl, ?_⟩
  intro e
  rw [hmain]
  simp

/-- C9, witness: the name "Acme Outdoors" with no table and no file yields
the processed single-row table. -/
theorem C9_single_name_fallback_witness :
    "Acme Outdoors".isEmpty = false
    ∧ (∃ dfO, (fn_leads_processor c4Env (some "Acme Outdoors") none CsvFile.absent
          { calls_made := 0, api_calls := 0 }).1 = Sum.inl dfO
        ∧ dfO.rows.length = 1
        ∧ dfO.rows.map (fun r => Row.getVal r "Business_Name") = [some "Acme Outdoors"]
        ∧ dfO.rows.map (fun r => Row.getVal r "Product_Focus") = [some "N/A"]
        ∧ dfO.rows.map (fun r => Row.getVal r "AI_Pitch_Sample") = [some "Custom AI services."]
        ∧ ∀ e : String, (fn_leads_processor c4Env (some "Acme Outdoors") none CsvFile.absent
            { calls_made := 0, api_calls := 0 }).1 ≠ Sum.inr e) :=
  ⟨rfl, C9_single_name_fallback c4Env "Acme Outdoors" rfl { calls_made := 0, api_calls := 0 }⟩
